import Mathlib

/-!
# AirTrail — Flight Record Validation & Deduplication Engine

A shallow embedding of the flight validation and bulk-import deduplication
code of `src/lib/server/utils/flight.ts` (together with the persistence
primitives of `src/lib/db/queries.ts`), and proofs about it.

Modelling conventions:
* Nullable TypeScript string fields become `Option String`; `none` stands for
  `null`/`undefined` (and, where the source tests truthiness, for the empty
  string as well).
* Timezone-aware instants (`TZDate`) are modelled as `Int` epoch seconds;
  `date-fns` `isBefore` becomes `<` and `differenceInSeconds` becomes
  subtraction on this representation.
* The datetime helpers of `$lib/utils/datetime` and the geodesic helpers of
  `$lib/utils` are not part of the analysed sources; they enter the embedding
  as an abstract environment `DatetimeEnv` of function parameters, so every
  theorem is quantified over their behaviour.  Floating point coordinates and
  distances are modelled by rationals.
* The relational store is modelled by `DBState`: a list of flights carrying
  their legs and seats, plus fresh-id counters.  Queries of `flight.ts` are
  translated against this state; inserts append, keeping row order.
-/

namespace AirTrail

/-- Reference data for an airport (`$lib/db/types` `Airport`), restricted to
the fields the engine reads: id, IANA timezone and coordinates. -/
structure Airport where
  id : Int
  tz : String
  lon : Rat
  lat : Rat
  deriving DecidableEq, Repr

/-- A seat assignment as it appears on `CreateLeg.seats` and on stored seats
(`userId`/`guestName`/`seat`/`seatNumber`/`seatClass`). -/
structure SeatInput where
  userId : Option String
  guestName : Option String
  seat : Option String
  seatNumber : Option String
  seatClass : Option String
  deriving DecidableEq, Repr

/-- The seat-independent fields of `CreateLeg` (`$lib/db/types`), i.e. the
value part produced by `validateAndProcessLeg`. -/
structure LegCore where
  from_ : Option Airport
  to_ : Option Airport
  duration : Option Int
  departure : Option String
  arrival : Option String
  departureScheduled : Option String
  arrivalScheduled : Option String
  takeoffScheduled : Option String
  takeoffActual : Option String
  landingScheduled : Option String
  landingActual : Option String
  departureTerminal : Option String
  departureGate : Option String
  arrivalTerminal : Option String
  arrivalGate : Option String
  flightNumber : Option String
  aircraft : Option Int
  aircraftReg : Option String
  airline : Option Int
  deriving DecidableEq, Repr

/-- `CreateLeg`: leg data together with its seats. -/
structure CreateLeg extends LegCore where
  seats : List SeatInput
  deriving DecidableEq, Repr

/-- `CreateFlight` (`$lib/db/types`): flight-level fields plus legs. -/
structure CreateFlight where
  date : String
  flightReason : Option String
  note : Option String
  legs : List CreateLeg
  deriving DecidableEq, Repr

/-- A stored leg row: database id plus the leg data and its seat rows. -/
structure StoredLeg where
  id : Nat
  core : LegCore
  seats : List SeatInput
  deriving DecidableEq, Repr

/-- A stored flight row with its legs (ordered by `legOrder`). -/
structure StoredFlight where
  id : Nat
  date : String
  flightReason : Option String
  note : Option String
  legs : List StoredLeg
  deriving DecidableEq, Repr

/-- The persistence state: the flight table (with nested legs and seats) and
fresh-id counters standing in for the SERIAL sequences. -/
structure DBState where
  flights : List StoredFlight
  nextFlightId : Nat
  nextLegId : Nat
  deriving DecidableEq, Repr

/-- Render an optional value joined into a signature: `x ?? ''` after the
optional chain, absent components contributing the empty string. -/
def optToString {α : Type} (f : α → String) : Option α → String
  | none => ""
  | some a => f a

/-- `signature` (flight.ts:308-323): the '|'-joined deduplication key built
from the flight date, first-leg origin/destination ids, flight number,
aircraft registration, departure, arrival and the leg count.  A flight with
no legs contributes only its date. -/
def signature (f : CreateFlight) : String :=
  match f.legs with
  | [] => f.date
  | firstLeg :: _ =>
    String.intercalate "|"
      [ f.date
      , optToString (fun a => toString a.id) firstLeg.from_
      , optToString (fun a => toString a.id) firstLeg.to_
      , firstLeg.flightNumber.getD ""
      , firstLeg.aircraftReg.getD ""
      , firstLeg.departure.getD ""
      , firstLeg.arrival.getD ""
      , toString f.legs.length ]

/-- The deduplication signature as the specification words it: the '|'-join of
date, first leg's from-airport id, to-airport id, flight number, aircraft
registration, departure, arrival and leg count, with absent components
contributing the empty string.  Stated independently of `signature` so the
two can be compared. -/
def signatureSpec (f : CreateFlight) : String :=
  String.intercalate "|"
    [ f.date
    , optToString (fun a => toString a.id) ((f.legs.head?).bind (·.from_))
    , optToString (fun a => toString a.id) ((f.legs.head?).bind (·.to_))
    , ((f.legs.head?).bind (·.flightNumber)).getD ""
    , ((f.legs.head?).bind (·.aircraftReg)).getD ""
    , ((f.legs.head?).bind (·.departure)).getD ""
    , ((f.legs.head?).bind (·.arrival)).getD ""
    , toString f.legs.length ]

/-- Abstract environment for the helpers imported from `$lib/utils/datetime`
and `$lib/utils`, which are outside the analysed sources.  Instants are `Int`
epoch seconds; a merge failure (the `try/catch` in the source) is `none`;
coordinates and distances are rationals standing in for floats. -/
structure DatetimeEnv where
  mergeTimeWithDate : String → String → String → Option Int
  parseISO : String → Int
  parseLocalISO : String → String → Int
  isBeforeEpoch : Int → Bool
  toUtcISO : Int → String
  formatDateYMD : Int → String
  distanceBetween : Rat × Rat → Rat × Rat → Rat
  estimateFlightDuration : Rat → Int

/-- The raw leg input (`z.infer<typeof flightSchema>['legs'][number]`):
required origin/destination airports, optional date and time-of-day strings
for each datetime field, identity fields and seats. -/
structure LegInput where
  from_ : Airport
  to_ : Airport
  departure : Option String
  departureTime : Option String
  arrival : Option String
  arrivalTime : Option String
  departureScheduled : Option String
  departureScheduledTime : Option String
  arrivalScheduled : Option String
  arrivalScheduledTime : Option String
  takeoffScheduled : Option String
  takeoffScheduledTime : Option String
  takeoffActual : Option String
  takeoffActualTime : Option String
  landingScheduled : Option String
  landingScheduledTime : Option String
  landingActual : Option String
  landingActualTime : Option String
  departureTerminal : Option String
  departureGate : Option String
  arrivalTerminal : Option String
  arrivalGate : Option String
  flightNumber : Option String
  aircraft : Option Int
  aircraftReg : Option String
  airline : Option Int
  seats : List SeatInput
  deriving DecidableEq, Repr

/-- A field-scoped validation error (`type: 'path'` of `ErrorActionResult`). -/
structure PathErr where
  path : String
  message : String
  deriving DecidableEq, Repr

/-- `pathError` of `validateAndProcessLeg`: scopes a message to
`legs[legIndex].path`. -/
def mkPathErr (legIndex : Nat) (path message : String) : PathErr :=
  ⟨s!"legs[{legIndex}].{path}", message⟩

/-- `parseDateTimeField` (flight.ts:54-66): absent date or time yields no
instant; both present go through `mergeTimeWithDate`, whose failure is the
error case (scoped to the `...Time` path by the caller). -/
def parseDateTimeField (env : DatetimeEnv) (date time : Option String)
    (tzId : String) : Except Unit (Option Int) :=
  match date, time with
  | some d, some t =>
    match env.mergeTimeWithDate d t tzId with
    | some v => .ok (some v)
    | none => .error ()
  | _, _ => .ok none

/-- Lines 86-95: the actual departure instant — merged only when both the
departure date and time are present, in the origin airport's zone. -/
def departureInstantE (env : DatetimeEnv) (l : LegInput) :
    Except Unit (Option Int) :=
  parseDateTimeField env l.departure l.departureTime l.from_.tz

/-- Lines 134-146: the actual arrival instant.  When an arrival time is
present without an arrival date, the date falls back to `legData.departure`
(the in-place mutation of line 135); the merge uses the destination zone. -/
def arrivalInstantE (env : DatetimeEnv) (l : LegInput) :
    Except Unit (Option Int) :=
  let arrivalDate :=
    if l.arrivalTime.isSome && l.arrival.isNone then l.departure else l.arrival
  parseDateTimeField env arrivalDate l.arrivalTime l.to_.tz

/-- Lines 179-188: duration from the resolved instants, falling back to the
geodesic estimate when the two airports have distinct ids, else `null`. -/
def legDuration (env : DatetimeEnv) (l : LegInput)
    (departure arrival : Option Int) : Option Int :=
  match departure, arrival with
  | some d, some a => some (a - d)
  | _, _ =>
    if l.from_.id ≠ l.to_.id then
      some (env.estimateFlightDuration
        (env.distanceBetween (l.from_.lon, l.from_.lat)
            (l.to_.lon, l.to_.lat) / 1000))
    else none

/-- Line 175's guard: both instants present and arrival strictly before
departure (`isBefore`). -/
def arrivalBeforeDeparture : Option Int → Option Int → Bool
  | some a, some d => a < d
  | _, _ => false

/-- `validateAndProcessLeg` (flight.ts:46-221): validates one raw leg in
source order and produces the normalized `LegCore` or the first field-scoped
error. -/
def validateAndProcessLeg (env : DatetimeEnv) (legData : LegInput)
    (legIndex : Nat) : Except PathErr LegCore :=
  match legData.departure.orElse (fun _ => legData.departureScheduled) with
  | none => .error (mkPathErr legIndex "departure" "Select a departure date")
  | some primaryDepartureDate =>
  if env.isBeforeEpoch (env.parseISO primaryDepartureDate) then
    .error (mkPathErr legIndex
      (if legData.departure.isSome then "departure" else "departureScheduled")
      "Too far in the past")
  else
  match departureInstantE env legData with
  | .error _ => .error (mkPathErr legIndex "departureTime" "Invalid time format")
  | .ok departure =>
  match parseDateTimeField env legData.departureScheduled
      legData.departureScheduledTime legData.from_.tz with
  | .error _ =>
    .error (mkPathErr legIndex "departureScheduledTime" "Invalid time format")
  | .ok departureScheduled =>
  match parseDateTimeField env legData.takeoffScheduled
      legData.takeoffScheduledTime legData.from_.tz with
  | .error _ =>
    .error (mkPathErr legIndex "takeoffScheduledTime" "Invalid time format")
  | .ok takeoffScheduled =>
  match parseDateTimeField env legData.takeoffActual
      legData.takeoffActualTime legData.from_.tz with
  | .error _ =>
    .error (mkPathErr legIndex "takeoffActualTime" "Invalid time format")
  | .ok takeoffActual =>
  match
    (match legData.arrival with
     | some arrivalRaw =>
       if env.isBeforeEpoch (env.parseLocalISO arrivalRaw legData.to_.tz) then
         Except.error (mkPathErr legIndex "arrival" "Too far in the past")
       else if legData.arrivalTime.isNone then
         Except.error
           (mkPathErr legIndex "arrival" "Cannot have arrival date without time")
       else Except.ok ()
     | none => Except.ok ()) with
  | .error e => .error e
  | .ok _ =>
  match arrivalInstantE env legData with
  | .error _ => .error (mkPathErr legIndex "arrivalTime" "Invalid time format")
  | .ok arrival =>
  match parseDateTimeField env legData.arrivalScheduled
      legData.arrivalScheduledTime legData.to_.tz with
  | .error _ =>
    .error (mkPathErr legIndex "arrivalScheduledTime" "Invalid time format")
  | .ok arrivalScheduled =>
  match parseDateTimeField env legData.landingScheduled
      legData.landingScheduledTime legData.to_.tz with
  | .error _ =>
    .error (mkPathErr legIndex "landingScheduledTime" "Invalid time format")
  | .ok landingScheduled =>
  match parseDateTimeField env legData.landingActual
      legData.landingActualTime legData.to_.tz with
  | .error _ =>
    .error (mkPathErr legIndex "landingActualTime" "Invalid time format")
  | .ok landingActual =>
  if arrivalBeforeDeparture arrival departure then
    .error (mkPathErr legIndex "arrival" "Arrival must be after departure")
  else
    .ok
      { from_ := some legData.from_
      , to_ := some legData.to_
      , duration := legDuration env legData departure arrival
      , departure := departure.map env.toUtcISO
      , arrival := arrival.map env.toUtcISO
      , departureScheduled := departureScheduled.map env.toUtcISO
      , arrivalScheduled := arrivalScheduled.map env.toUtcISO
      , takeoffScheduled := takeoffScheduled.map env.toUtcISO
      , takeoffActual := takeoffActual.map env.toUtcISO
      , landingScheduled := landingScheduled.map env.toUtcISO
      , landingActual := landingActual.map env.toUtcISO
      , departureTerminal := legData.departureTerminal
      , departureGate := legData.departureGate
      , arrivalTerminal := legData.arrivalTerminal
      , arrivalGate := legData.arrivalGate
      , flightNumber := legData.flightNumber
      , aircraft := legData.aircraft
      , aircraftReg := legData.aircraftReg
      , airline := legData.airline }

end AirTrail

namespace AirTrail

/-- C4: For every flight with at least one leg, the deduplication signature
equals the '|'-joined string of the flight's date, first leg's from-airport
id, to-airport id, flight number, aircraft registration, departure, arrival
and the leg count, absent components contributing the empty string. -/
theorem signature_eq_spec (f : CreateFlight) (l : CreateLeg) (ls : List CreateLeg)
    (h : f.legs = l :: ls) :
    signature f = signatureSpec f := by
  unfold signature signatureSpec
  rw [h]
  rfl

/-- A leg with every optional field absent, convenient base for examples. -/
def emptyLeg : CreateLeg where
  from_ := none
  to_ := none
  duration := none
  departure := none
  arrival := none
  departureScheduled := none
  arrivalScheduled := none
  takeoffScheduled := none
  takeoffActual := none
  landingScheduled := none
  landingActual := none
  departureTerminal := none
  departureGate := none
  arrivalTerminal := none
  arrivalGate := none
  flightNumber := none
  aircraft := none
  aircraftReg := none
  airline := none
  seats := []

/-- A concrete two-leg flight exercising both present and absent signature
components. -/
def exampleFlightC4 : CreateFlight where
  date := "2024-05-01"
  flightReason := none
  note := none
  legs :=
    [ { emptyLeg with
          from_ := some ⟨3, "Europe/Paris", 2, 48⟩,
          departure := some "2024-05-01T08:00:00.000Z",
          flightNumber := some "AF101" }
    , emptyLeg ]

/-- Witness for C4 at a concrete two-leg flight with some absent components. -/
theorem signature_eq_spec_witness :
    exampleFlightC4.legs =
        { emptyLeg with
            from_ := some ⟨3, "Europe/Paris", 2, 48⟩,
            departure := some "2024-05-01T08:00:00.000Z",
            flightNumber := some "AF101" } :: [emptyLeg] ∧
      signature exampleFlightC4 = signatureSpec exampleFlightC4 :=
  ⟨rfl, signature_eq_spec _ _ _ rfl⟩

end AirTrail

namespace AirTrail

/-- Validation success fixes the duration to `legDuration` of the resolved
instants. -/
theorem validateAndProcessLeg_ok_duration (env : DatetimeEnv) (l : LegInput)
    (i : Nat) (v : LegCore) (dep arr : Option Int)
    (hdep : departureInstantE env l = Except.ok dep)
    (harr : arrivalInstantE env l = Except.ok arr)
    (hok : validateAndProcessLeg env l i = Except.ok v) :
    v.duration = legDuration env l dep arr := by
  unfold validateAndProcessLeg at hok
  rw [hdep, harr] at hok
  repeat
    first
    | exact Except.noConfusion hok
    | split at hok
  injections
  subst_vars
  rfl

end AirTrail

namespace AirTrail

/-- C5: For every successfully validated leg, if both instants resolved the
duration is arrival minus departure in seconds; otherwise, if the origin and
destination airports differ (by id), it is the geodesic estimate; otherwise
it is null. -/
theorem leg_duration_spec (env : DatetimeEnv) (l : LegInput) (i : Nat)
    (v : LegCore) (dep arr : Option Int)
    (hdep : departureInstantE env l = Except.ok dep)
    (harr : arrivalInstantE env l = Except.ok arr)
    (hok : validateAndProcessLeg env l i = Except.ok v) :
    (∀ d a, dep = some d → arr = some a → v.duration = some (a - d)) ∧
    ((dep = none ∨ arr = none) → l.from_.id ≠ l.to_.id →
      v.duration = some (env.estimateFlightDuration
        (env.distanceBetween (l.from_.lon, l.from_.lat)
            (l.to_.lon, l.to_.lat) / 1000))) ∧
    ((dep = none ∨ arr = none) → l.from_.id = l.to_.id →
      v.duration = none) := by
  have hd := validateAndProcessLeg_ok_duration env l i v dep arr hdep harr hok
  rw [hd]
  refine ⟨?_, ?_, ?_⟩
  · rintro d a rfl rfl
    rfl
  · rintro (rfl | rfl) hne
    · cases arr <;> simp [legDuration, hne]
    · cases dep <;> simp [legDuration, hne]
  · rintro (rfl | rfl) heq
    · cases arr <;> simp [legDuration, heq]
    · cases dep <;> simp [legDuration, heq]

end AirTrail

namespace AirTrail

/-- Example origin airport. -/
def apA : Airport := ⟨1, "America/New_York", -74, 41⟩

/-- Example destination airport. -/
def apB : Airport := ⟨2, "America/Los_Angeles", -118, 34⟩

/-- A leg input with all optional fields absent, for building examples. -/
def emptyLegInput (a b : Airport) : LegInput where
  from_ := a
  to_ := b
  departure := none
  departureTime := none
  arrival := none
  arrivalTime := none
  departureScheduled := none
  departureScheduledTime := none
  arrivalScheduled := none
  arrivalScheduledTime := none
  takeoffScheduled := none
  takeoffScheduledTime := none
  takeoffActual := none
  takeoffActualTime := none
  landingScheduled := none
  landingScheduledTime := none
  landingActual := none
  landingActualTime := none
  departureTerminal := none
  departureGate := none
  arrivalTerminal := none
  arrivalGate := none
  flightNumber := none
  aircraft := none
  aircraftReg := none
  airline := none
  seats := []

/-- A concrete interpretation of the datetime environment used by witnesses:
time "07:00" merges to instant 50, "11:30" to 150, anything else to 100;
nothing is before the epoch; ISO rendering is decimal. -/
def cEnvA : DatetimeEnv where
  mergeTimeWithDate := fun _ t _ =>
    if t = "07:00" then some 50 else if t = "11:30" then some 150 else some 100
  parseISO := fun _ => 0
  parseLocalISO := fun _ _ => 0
  isBeforeEpoch := fun _ => false
  toUtcISO := fun inst => toString inst
  formatDateYMD := fun _ => "2024-01-01"
  distanceBetween := fun _ _ => 3000
  estimateFlightDuration := fun _ => 5400

/-- Concrete leg for the C5 witness: both instants resolve (100 and 150). -/
def cLegC5 : LegInput :=
  { emptyLegInput apA apB with
      departure := some "2024-01-01"
      departureTime := some "10:00"
      arrival := some "2024-01-01"
      arrivalTime := some "11:30" }

/-- Expected normalized leg for `cLegC5` under `cEnvA`. -/
def cValC5 : LegCore where
  from_ := some apA
  to_ := some apB
  duration := some 50
  departure := some "100"
  arrival := some "150"
  departureScheduled := none
  arrivalScheduled := none
  takeoffScheduled := none
  takeoffActual := none
  landingScheduled := none
  landingActual := none
  departureTerminal := none
  departureGate := none
  arrivalTerminal := none
  arrivalGate := none
  flightNumber := none
  aircraft := none
  aircraftReg := none
  airline := none

/-- Witness for C5: at `cEnvA`/`cLegC5` the validated duration equals
arrival minus departure. -/
theorem leg_duration_spec_witness : cValC5.duration = some ((150 : Int) - 100) :=
  (leg_duration_spec cEnvA cLegC5 0 cValC5 (some 100) (some 150)
      rfl rfl rfl).1 100 150 rfl rfl

end AirTrail

namespace AirTrail

/-- C6: For a leg whose departure and arrival instants both resolve (and whose
remaining datetime fields parse), validation fails with "Arrival must be
after departure" scoped to `legs[i].arrival` exactly when the arrival instant
is strictly before the departure instant. -/
theorem arrival_before_departure_iff (env : DatetimeEnv) (l : LegInput)
    (i : Nat) (dd dt ad atm : String) (depI arrI : Int)
    (h1 : l.departure = some dd) (h2 : l.departureTime = some dt)
    (h3 : env.mergeTimeWithDate dd dt l.from_.tz = some depI)
    (h4 : env.isBeforeEpoch (env.parseISO dd) = false)
    (h5 : ∃ w, parseDateTimeField env l.departureScheduled
        l.departureScheduledTime l.from_.tz = Except.ok w)
    (h6 : ∃ w, parseDateTimeField env l.takeoffScheduled
        l.takeoffScheduledTime l.from_.tz = Except.ok w)
    (h7 : ∃ w, parseDateTimeField env l.takeoffActual
        l.takeoffActualTime l.from_.tz = Except.ok w)
    (h8 : l.arrival = some ad)
    (h9 : env.isBeforeEpoch (env.parseLocalISO ad l.to_.tz) = false)
    (h10 : l.arrivalTime = some atm)
    (h11 : env.mergeTimeWithDate ad atm l.to_.tz = some arrI)
    (h12 : ∃ w, parseDateTimeField env l.arrivalScheduled
        l.arrivalScheduledTime l.to_.tz = Except.ok w)
    (h13 : ∃ w, parseDateTimeField env l.landingScheduled
        l.landingScheduledTime l.to_.tz = Except.ok w)
    (h14 : ∃ w, parseDateTimeField env l.landingActual
        l.landingActualTime l.to_.tz = Except.ok w) :
    (validateAndProcessLeg env l i =
        Except.error (mkPathErr i "arrival" "Arrival must be after departure")) ↔
      arrI < depI := by
  obtain ⟨w5, h5⟩ := h5
  obtain ⟨w6, h6⟩ := h6
  obtain ⟨w7, h7⟩ := h7
  obtain ⟨w12, h12⟩ := h12
  obtain ⟨w13, h13⟩ := h13
  obtain ⟨w14, h14⟩ := h14
  have hdep : departureInstantE env l = Except.ok (some depI) := by
    rw [departureInstantE, h1, h2]
    simp [parseDateTimeField, h3]
  have harr : arrivalInstantE env l = Except.ok (some arrI) := by
    rw [arrivalInstantE]
    simp only [h8, h10]
    simp [parseDateTimeField, h11]
  rcases lt_or_ge arrI depI with hlt | hge
  · simp only [validateAndProcessLeg, h1, h2, h4, h8, h9, h10, hdep, harr,
      h5, h6, h7, h12, h13, h14, Option.some_orElse, Option.isNone_some,
      Bool.false_eq_true, if_false, arrivalBeforeDeparture]
    simp [hlt, h4]
  · have hnlt : ¬ arrI < depI := not_lt.mpr hge
    simp only [validateAndProcessLeg, h1, h2, h4, h8, h9, h10, hdep, harr,
      h5, h6, h7, h12, h13, h14, Option.some_orElse, Option.isNone_some,
      Bool.false_eq_true, if_false, arrivalBeforeDeparture]
    simp [hnlt, h4]

end AirTrail

namespace AirTrail

/-- Concrete leg for the C6 witness: arrival instant 50 precedes departure
instant 100. -/
def cLegC6 : LegInput :=
  { emptyLegInput apA apB with
      departure := some "2024-01-01"
      departureTime := some "10:00"
      arrival := some "2024-01-01"
      arrivalTime := some "07:00" }

/-- Witness for C6 at `cEnvA`/`cLegC6` with leg index 2. -/
theorem arrival_before_departure_iff_witness :
    (validateAndProcessLeg cEnvA cLegC6 2 =
        Except.error (mkPathErr 2 "arrival" "Arrival must be after departure")) ↔
      (50 : Int) < 100 :=
  arrival_before_departure_iff cEnvA cLegC6 2 "2024-01-01" "10:00"
    "2024-01-01" "07:00" 100 50 rfl rfl rfl rfl ⟨none, rfl⟩ ⟨none, rfl⟩
    ⟨none, rfl⟩ rfl rfl rfl rfl ⟨none, rfl⟩ ⟨none, rfl⟩ ⟨none, rfl⟩

/-- C8 (amended): when an arrival time is present without an arrival date,
the default date is the leg's actual `departure` field.  When `departure` is
present the arrival instant merges the departure date with the arrival time
in the destination zone; when only `departureScheduled` supplied the date,
no arrival instant is produced. -/
theorem arrival_date_defaults_to_departure (env : DatetimeEnv) (l : LegInput)
    (t : String) (ht : l.arrivalTime = some t) (ha : l.arrival = none) :
    (∀ d, l.departure = some d →
        arrivalInstantE env l =
          match env.mergeTimeWithDate d t l.to_.tz with
          | some v => Except.ok (some v)
          | none => Except.error ()) ∧
    (l.departure = none → arrivalInstantE env l = Except.ok none) := by
  constructor
  · intro d hd
    rw [arrivalInstantE]
    simp only [ht, ha, hd, Option.isSome_some, Option.isNone_none,
      Bool.and_self, if_true]
    cases hm : env.mergeTimeWithDate d t l.to_.tz <;>
      simp [parseDateTimeField, hm]
  · intro hd
    rw [arrivalInstantE]
    simp [parseDateTimeField, ht, ha, hd]

/-- Concrete leg for the C8 witness: arrival time present, arrival date
absent, departure date present. -/
def cLegC8 : LegInput :=
  { emptyLegInput apA apB with
      departure := some "2024-03-03"
      arrivalTime := some "09:15" }

/-- Witness for C8 (amended) at `cEnvA`/`cLegC8`. -/
theorem arrival_date_defaults_to_departure_witness :
    arrivalInstantE cEnvA cLegC8 =
      match cEnvA.mergeTimeWithDate "2024-03-03" "09:15" cLegC8.to_.tz with
      | some v => Except.ok (some v)
      | none => Except.error () :=
  (arrival_date_defaults_to_departure cEnvA cLegC8 "09:15" rfl rfl).1
    "2024-03-03" rfl

/-- Concrete leg refuting C8 as stated: only `departureScheduled` supplies
the date. -/
def cLegC8bad : LegInput :=
  { emptyLegInput apA apB with
      departureScheduled := some "2024-01-02"
      arrivalTime := some "10:00" }

/-- Expected normalized leg for `cLegC8bad` under `cEnvA`: no arrival
instant, estimated duration. -/
def cValC8bad : LegCore where
  from_ := some apA
  to_ := some apB
  duration := some 5400
  departure := none
  arrival := none
  departureScheduled := none
  arrivalScheduled := none
  takeoffScheduled := none
  takeoffActual := none
  landingScheduled := none
  landingActual := none
  departureTerminal := none
  departureGate := none
  arrivalTerminal := none
  arrivalGate := none
  flightNumber := none
  aircraft := none
  aircraftReg := none
  airline := none

/-- Counterexample to C8 as stated: with an arrival time, no arrival date,
and the leg's date supplied only by `departureScheduled`, the claim requires
the arrival instant to be the merge of "2024-01-02" with "10:00" in the
destination zone (here instant 100), but validation succeeds with **no**
arrival instant on the normalized leg. -/
theorem arrival_default_scheduled_counterexample :
    cLegC8bad.arrivalTime = some "10:00" ∧
    cLegC8bad.arrival = none ∧
    cLegC8bad.departure = none ∧
    cLegC8bad.departureScheduled = some "2024-01-02" ∧
    cEnvA.mergeTimeWithDate "2024-01-02" "10:00" cLegC8bad.to_.tz = some 100 ∧
    validateAndProcessLeg cEnvA cLegC8bad 0 = Except.ok cValC8bad ∧
    cValC8bad.arrival = none :=
  ⟨rfl, rfl, rfl, rfl, rfl, rfl, rfl⟩

end AirTrail

namespace AirTrail

/-- The acting user (`$lib/db/types` `User`), restricted to the id the engine
reads. -/
structure User where
  id : String
  deriving DecidableEq, Repr

/-- The flight-level input of `validateAndSaveFlight`
(`z.infer<typeof flightSchema>`): optional update id, reason, note, legs. -/
structure FlightInput where
  id : Option Nat
  flightReason : Option String
  note : Option String
  legs : List LegInput
  deriving DecidableEq, Repr

/-- A write issued against the store boundary. -/
inductive StoreOp where
  | create (values : CreateFlight)
  | update (id : Nat) (values : CreateFlight)
  deriving DecidableEq, Repr

/-- The result shape of `validateAndSaveFlight` (`ErrorActionResult` plus the
success id).  `thrown` models the TypeError a legless input would raise at
the non-null assertion `data.legs[0]!`; the store itself is modelled total,
so the catch branches (`type: 'error'`) do not arise. -/
inductive SaveResult where
  | pathFail (path message : String)
  | httpFail (status : Nat) (message : String)
  | opFail (message : String)
  | ok (message : String) (id : Option Nat)
  | thrown
  deriving DecidableEq, Repr

/-- `flight?.legs.some(leg => leg.seats.some(seat => seat.userId === user.id))`:
whether the user holds a seat on any leg of a stored flight. -/
def userHasSeatOn (userId : String) (fl : StoredFlight) : Bool :=
  fl.legs.any (fun l => l.seats.any (fun s => s.userId = some userId))

/-- `getFlight` (flight.ts:36-38): fetch a flight with legs and seats by id. -/
def getFlight (st : DBState) (id : Nat) : Option StoredFlight :=
  st.flights.find? (fun fl => fl.id = id)

/-- Assign consecutive leg ids (the SERIAL sequence) to the legs of one
flight, in `legOrder`. -/
def mkStoredLegs (legs : List CreateLeg) (firstId : Nat) :
    List StoredLeg × Nat :=
  legs.foldl (fun acc l => (acc.1 ++ [⟨acc.2, l.toLegCore, l.seats⟩], acc.2 + 1))
    ([], firstId)

/-- `createFlightPrimitive` (queries.ts): atomic insert of flight + ordered
legs + seats, returning the new flight id. -/
def createFlightPrimitive (st : DBState) (data : CreateFlight) :
    DBState × Nat :=
  let fid := st.nextFlightId
  let legsNext := mkStoredLegs data.legs st.nextLegId
  ({ flights :=
       st.flights ++ [⟨fid, data.date, data.flightReason, data.note, legsNext.1⟩]
   , nextFlightId := fid + 1
   , nextLegId := legsNext.2 }, fid)

/-- `updateFlightPrimitive` (queries.ts): update the flight row, delete all
its legs (cascading seats) and re-insert the new legs and seats. -/
def updateFlightPrimitive (st : DBState) (id : Nat) (data : CreateFlight) :
    DBState :=
  let legsNext := mkStoredLegs data.legs st.nextLegId
  { flights := st.flights.map (fun fl =>
      if fl.id = id then ⟨fl.id, data.date, data.flightReason, data.note, legsNext.1⟩
      else fl)
  , nextFlightId := st.nextFlightId
  , nextLegId := legsNext.2 }

/-- The leg loop of `validateAndSaveFlight` (flight.ts:229-239): validate
legs in order, short-circuiting on the first error, pairing each normalized
value with the raw leg's seats. -/
def processLegs (env : DatetimeEnv) :
    List LegInput → Nat → Except PathErr (List CreateLeg)
  | [], _ => .ok []
  | l :: rest, i =>
    match validateAndProcessLeg env l i with
    | .error e => .error e
    | .ok v =>
      match processLegs env rest (i + 1) with
      | .error e => .error e
      | .ok vs => .ok ({ toLegCore := v, seats := l.seats } :: vs)

/-- `validateAndSaveFlight` (flight.ts:223-298): validate all legs, derive
the flight date from the first leg, then update (with the seat-ownership
check) or create.  Returns the result, the post state, and the list of
store writes issued. -/
def validateAndSaveFlight (env : DatetimeEnv) (st : DBState) (user : User)
    (data : FlightInput) : SaveResult × DBState × List StoreOp :=
  match processLegs env data.legs 0 with
  | .error e => (.pathFail e.path e.message, st, [])
  | .ok processedLegs =>
    match data.legs.head? with
    | none => (.thrown, st, [])
    | some firstLeg =>
      match firstLeg.departure.orElse (fun _ => firstLeg.departureScheduled) with
      | none => (.thrown, st, [])
      | some primaryDepartureDate =>
        let values : CreateFlight :=
          { date := env.formatDateYMD (env.parseISO primaryDepartureDate)
          , flightReason := data.flightReason
          , note := data.note
          , legs := processedLegs }
        -- `if (updateId)`: JS truthiness, so an id of 0 falls to the create path
        let updateId := data.id.getD 0
        if updateId ≠ 0 then
          if (getFlight st updateId).elim false (userHasSeatOn user.id) then
            (.ok "Flight updated successfully" none,
             updateFlightPrimitive st updateId values,
             [.update updateId values])
          else
            (.httpFail 403 "Flight not found or you do not have a seat on this flight",
             st, [])
        else
          let stFid := createFlightPrimitive st values
          (.ok "Flight added" (some stFid.2), stFid.1, [.create values])

end AirTrail

namespace AirTrail

/-- If leg `i` is the first failing leg, the leg loop returns exactly its
error (indices offset by `k`). -/
theorem processLegs_error (env : DatetimeEnv) :
    ∀ (ls : List LegInput) (k i : Nat) (l : LegInput) (e : PathErr),
      ls.get? i = some l →
      validateAndProcessLeg env l (k + i) = Except.error e →
      (∀ j l', j < i → ls.get? j = some l' →
        ∃ v, validateAndProcessLeg env l' (k + j) = Except.ok v) →
      processLegs env ls k = Except.error e
  | [], _, i, _, _, hl, _, _ => by simp at hl
  | x :: rest, k, 0, l, e, hl, he, _ => by
    simp only [List.get?_cons_zero, Option.some.injEq] at hl
    subst hl
    rw [Nat.add_zero] at he
    unfold processLegs
    rw [he]
  | x :: rest, k, i + 1, l, e, hl, he, hprev => by
    obtain ⟨v, hv⟩ := hprev 0 x (Nat.succ_pos i) rfl
    rw [Nat.add_zero] at hv
    have hrec : processLegs env rest (k + 1) = Except.error e := by
      refine processLegs_error env rest (k + 1) i l e (by simpa using hl)
        (by rw [show k + 1 + i = k + (i + 1) by omega]; exact he) ?_
      intro j l' hj hl'
      rw [show k + 1 + j = k + (j + 1) by omega]
      exact hprev (j + 1) l' (Nat.succ_lt_succ hj) (by simpa using hl')
    unfold processLegs
    rw [hv, hrec]

/-- C3: If any leg fails validation (the earlier ones succeeding),
`validateAndSaveFlight` returns the field-scoped error of the first failing
leg, leaves the store untouched and issues no `createFlight`/`updateFlight`
write. -/
theorem first_leg_error_no_write (env : DatetimeEnv) (st : DBState)
    (user : User) (data : FlightInput) (i : Nat) (l : LegInput) (e : PathErr)
    (hl : data.legs.get? i = some l)
    (he : validateAndProcessLeg env l i = Except.error e)
    (hprev : ∀ j l', j < i → data.legs.get? j = some l' →
      ∃ v, validateAndProcessLeg env l' j = Except.ok v) :
    validateAndSaveFlight env st user data =
      (SaveResult.pathFail e.path e.message, st, []) := by
  have hpl : processLegs env data.legs 0 = Except.error e := by
    refine processLegs_error env data.legs 0 i l e hl ?_ ?_
    · rw [Nat.zero_add]
      exact he
    · intro j l' hj hl'
      rw [Nat.zero_add]
      exact hprev j l' hj hl'
  unfold validateAndSaveFlight
  rw [hpl]

end AirTrail

namespace AirTrail

/-- The empty store. -/
def stEmpty : DBState := ⟨[], 1, 1⟩

/-- The acting user of the examples. -/
def cUserAlice : User := ⟨"alice"⟩

/-- Flight input for the C3 witness: a valid first leg followed by a leg
missing both departure dates. -/
def cFlightC3 : FlightInput where
  id := none
  flightReason := none
  note := none
  legs := [cLegC5, emptyLegInput apA apB]

/-- Witness for C3: the second leg's "Select a departure date" error is
returned, with no state change and no store write. -/
theorem first_leg_error_no_write_witness :
    validateAndSaveFlight cEnvA stEmpty cUserAlice cFlightC3 =
      (SaveResult.pathFail "legs[1].departure" "Select a departure date",
       stEmpty, []) := by
  refine first_leg_error_no_write cEnvA stEmpty cUserAlice cFlightC3 1
    (emptyLegInput apA apB) (mkPathErr 1 "departure" "Select a departure date")
    rfl rfl ?_
  intro j l' hj hl'
  have hj0 : j = 0 := by omega
  subst hj0
  simp only [cFlightC3, List.get?_cons_zero, Option.some.injEq] at hl'
  subst hl'
  exact ⟨cValC5, rfl⟩

/-- Success of a leg requires a departure or scheduled-departure date. -/
theorem validateAndProcessLeg_ok_primary (env : DatetimeEnv) (l : LegInput)
    (i : Nat) (v : LegCore)
    (h : validateAndProcessLeg env l i = Except.ok v) :
    (l.departure.orElse fun _ => l.departureScheduled).isSome := by
  unfold validateAndProcessLeg at h
  cases hor : l.departure.orElse fun _ => l.departureScheduled with
  | none =>
    rw [hor] at h
    exact Except.noConfusion h
  | some d => rfl

/-- C9: On update of an existing flight where the acting user holds no seat
on the stored record, `validateAndSaveFlight` fails with the 403 ownership
error, leaves the state unchanged and issues no write. -/
theorem update_requires_seat (env : DatetimeEnv) (st : DBState) (user : User)
    (data : FlightInput) (uid : Nat) (l0 : LegInput) (ls : List LegInput)
    (pls : List CreateLeg)
    (hid : data.id = some uid) (hne : uid ≠ 0)
    (hlegs : data.legs = l0 :: ls)
    (hval : processLegs env data.legs 0 = Except.ok pls)
    (hnoseat : ∀ fl ∈ st.flights, fl.id = uid →
      userHasSeatOn user.id fl = false) :
    validateAndSaveFlight env st user data =
      (SaveResult.httpFail 403
        "Flight not found or you do not have a seat on this flight", st, []) := by
  have hv0 : ∃ v, validateAndProcessLeg env l0 0 = Except.ok v := by
    rw [hlegs] at hval
    unfold processLegs at hval
    cases h0 : validateAndProcessLeg env l0 0 with
    | error e =>
      rw [h0] at hval
      exact Except.noConfusion hval
    | ok v => exact ⟨v, rfl⟩
  obtain ⟨v0, hv0⟩ := hv0
  have hprim := validateAndProcessLeg_ok_primary env l0 0 v0 hv0
  unfold validateAndSaveFlight
  rw [hval, hlegs]
  simp only [List.head?_cons]
  cases hor : l0.departure.orElse fun _ => l0.departureScheduled with
  | none =>
    rw [hor] at hprim
    exact absurd hprim (by simp)
  | some pd =>
    have hgf : (getFlight st uid).elim false (userHasSeatOn user.id) = false := by
      cases hf : getFlight st uid with
      | none => rfl
      | some fl =>
        have hmem := List.mem_of_find?_eq_some hf
        have hpred := List.find?_some hf
        simp only [decide_eq_true_eq] at hpred
        simp only [Option.elim_some]
        exact hnoseat fl hmem hpred
    rw [hid]
    simp only [Option.getD_some]
    rw [if_pos hne, hgf]
    rfl

end AirTrail

namespace AirTrail

/-- A stored flight owned by bob (seat with userId "bob" on its only leg). -/
def flightBob : StoredFlight :=
  ⟨7, "2024-01-01", none, none,
    [⟨10, emptyLeg.toLegCore, [⟨some "bob", none, none, none, none⟩]⟩]⟩

/-- Store containing only bob's flight. -/
def stC9 : DBState := ⟨[flightBob], 8, 20⟩

/-- Update request by alice against bob's flight id 7, with one valid leg. -/
def cFlightC9 : FlightInput where
  id := some 7
  flightReason := none
  note := none
  legs := [cLegC5]

/-- Witness for C9: alice's update of bob's flight returns the 403 ownership
error with no state change and no write. -/
theorem update_requires_seat_witness :
    validateAndSaveFlight cEnvA stC9 cUserAlice cFlightC9 =
      (SaveResult.httpFail 403
        "Flight not found or you do not have a seat on this flight",
       stC9, []) := by
  refine update_requires_seat cEnvA stC9 cUserAlice cFlightC9 7 cLegC5 []
    [{ toLegCore := cValC5, seats := [] }] rfl (by omega) rfl rfl ?_
  intro fl hfl hid
  simp only [stC9, List.mem_singleton] at hfl
  subst hfl
  rfl

end AirTrail

namespace AirTrail

/-- Rebuild the `CreateFlight` shape from a stored flight when computing its
signature (flight.ts:385-400: the spread keeps all leg fields and re-lists
the seats). -/
def storedToCreate (ef : StoredFlight) : CreateFlight where
  date := ef.date
  flightReason := ef.flightReason
  note := ef.note
  legs := ef.legs.map (fun l => { toLegCore := l.core, seats := l.seats })

/-- Step 1 (flight.ts:340-346): de-duplicate the incoming batch by signature,
first occurrence winning (the insertion-ordered `uniqueMap`). -/
def dedupeBatch (data : List CreateFlight) : List CreateFlight :=
  data.foldl (fun acc f =>
    if acc.any (fun g => signature g = signature f) then acc else acc ++ [f]) []

/-- A seat row queued for the bulk seat insert (`Insertable<DB['seat']>`). -/
structure SeatRow where
  legId : Nat
  userId : Option String
  guestName : Option String
  seat : Option String
  seatNumber : Option String
  seatClass : Option String
  deriving DecidableEq, Repr

/-- `seatKey` (flight.ts:462-463): the template string
`legId + "|" + (userId ?? "")`. -/
def seatKey (s : SeatRow) : String :=
  toString s.legId ++ "|" ++ s.userId.getD ""

/-- One step of the seat de-duplication map insert (first occurrence wins). -/
def seatDedupStep (acc : List SeatRow) (s : SeatRow) : List SeatRow :=
  if acc.any (fun t => seatKey t = seatKey s) then acc else acc ++ [s]

/-- flight.ts:464-469: de-duplicate attach candidates by `seatKey`, first
occurrence winning. -/
def dedupeSeatRows (rows : List SeatRow) : List SeatRow :=
  rows.foldl seatDedupStep []

/-- The candidate dates of the batch (`new Set(uniqueFlights.map(f => f.date))`). -/
def batchDates (uniq : List CreateFlight) : List String :=
  uniq.map (·.date)

/-- The candidate first-leg origin ids; `!!id` drops both absent and zero
ids (flight.ts:353-357). -/
def batchFroms (uniq : List CreateFlight) : List Int :=
  (uniq.filterMap (fun f => (f.legs.head?.bind (·.from_)).map (·.id))).filter
    (fun id => id ≠ 0)

/-- The candidate first-leg destination ids (flight.ts:358-362). -/
def batchTos (uniq : List CreateFlight) : List Int :=
  (uniq.filterMap (fun f => (f.legs.head?.bind (·.to_)).map (·.id))).filter
    (fun id => id ≠ 0)

/-- flight.ts:364-381: the fetched candidate set — the importing user's own
flights (the list query keeps only flights where the user holds a seat) whose
date is among the batch dates, then filtered to those whose first leg's
origin/destination ids are in the respective batch sets (`?? -1` for a null
airport).  Skipped entirely when any of the three sets is empty. -/
def candidateFlights (st : DBState) (userId : String)
    (uniq : List CreateFlight) : List StoredFlight :=
  if batchDates uniq ≠ [] ∧ batchFroms uniq ≠ [] ∧ batchTos uniq ≠ [] then
    ((st.flights.filter (fun fl => userHasSeatOn userId fl)).filter
        (fun ef => (batchDates uniq).contains ef.date)).filter
      (fun ef =>
        match ef.legs.head? with
        | none => false
        | some firstLeg =>
          (batchFroms uniq).contains (firstLeg.core.from_.elim (-1) (·.id)) &&
          (batchTos uniq).contains (firstLeg.core.to_.elim (-1) (·.id)))
  else []

/-- One map insert of the signature index (`if (!existingBySig.has(key))`),
`key` being the stored flight's signature. -/
def sigMapStep (m : List (String × Nat)) (ef : StoredFlight) :
    List (String × Nat) :=
  if m.any (fun p => p.1 = signature (storedToCreate ef)) then m
  else m ++ [(signature (storedToCreate ef), ef.id)]

/-- Step 3 (flight.ts:383-402): signature → existing flight id, first match
winning. -/
def buildSigMap (cands : List StoredFlight) : List (String × Nat) :=
  cands.foldl sigMapStep []

/-- flight.ts:405-416: ids of candidate flights on which the user holds a
seat (the batched `leg ⋈ seat` lookup over `existingIds`). -/
def userSeatFlightIds (st : DBState) (userId : String)
    (existingIds : List Nat) : List Nat :=
  if existingIds ≠ [] then
    (st.flights.filter (fun fl =>
        existingIds.contains fl.id && userHasSeatOn userId fl)).map (·.id)
  else []

/-- One step of the partition loop (flight.ts:422-450) for one incoming
flight. `if (existingId)` is JS truthiness, so a missing signature match or
an id of 0 falls through to the insert branch; likewise `if (firstLegId)`. -/
def partitionStep (cands : List StoredFlight) (sigMap : List (String × Nat))
    (seatIds : List Nat) (acc : List CreateFlight × List SeatRow)
    (f : CreateFlight) : List CreateFlight × List SeatRow :=
  let existingId := ((sigMap.find? (fun p => p.1 = signature f)).map (·.2)).getD 0
  if existingId ≠ 0 then
    if seatIds.contains existingId then acc
    else
      match (cands.find? (fun ef => ef.id = existingId)).bind
          (fun ef => ef.legs.head?) with
      | some firstLeg =>
        if firstLeg.id ≠ 0 then
          (acc.1, acc.2 ++ (f.legs.head?.elim [] (·.seats)).map (fun s =>
            ⟨firstLeg.id, s.userId, s.guestName, s.seat, s.seatNumber,
              s.seatClass⟩))
        else acc
      | none => acc
  else (acc.1 ++ [f], acc.2)

/-- The whole partition loop: flights to insert and seat rows to attach. -/
def partitionImport (cands : List StoredFlight) (sigMap : List (String × Nat))
    (seatIds : List Nat) (uniq : List CreateFlight) :
    List CreateFlight × List SeatRow :=
  uniq.foldl (partitionStep cands sigMap seatIds) ([], [])

/-- `createManyFlightsPrimitive` (queries.ts): insert each flight with its
legs and seats in order. -/
def createManyFlightsPrimitive (st : DBState) (data : List CreateFlight) :
    DBState :=
  data.foldl (fun s f => (createFlightPrimitive s f).1) st

/-- The bulk seat insert (`db.insertInto('seat').values(uniqueSeats)`): each
row lands on the leg whose id it names. -/
def insertSeatRows (st : DBState) (rows : List SeatRow) : DBState :=
  { st with
      flights := st.flights.map (fun fl =>
        { fl with
            legs := fl.legs.map (fun l =>
              { l with
                  seats := l.seats ++
                    (rows.filter (fun r => r.legId = l.id)).map
                      (fun r => ⟨r.userId, r.guestName, r.seat, r.seatNumber,
                        r.seatClass⟩) }) }) }

/-- The seat total of the non-deduplicated path (flight.ts:332-335). -/
def totalSeatCount (data : List CreateFlight) : Nat :=
  data.foldl (fun acc f =>
    acc + f.legs.foldl (fun a l => a + l.seats.length) 0) 0

/-- `createManyFlights` (flight.ts:325-477): bulk import with optional
deduplication.  Returns the post state and the
(insertedFlights, attachedSeats) counts. -/
def createManyFlights (st : DBState) (data : List CreateFlight)
    (userId : String) (dedupe : Bool) : DBState × Nat × Nat :=
  if !dedupe then
    (createManyFlightsPrimitive st data, data.length, totalSeatCount data)
  else
    let uniq := dedupeBatch data
    if uniq.length = 0 then (st, 0, 0)
    else
      let cands := candidateFlights st userId uniq
      let sigMap := buildSigMap cands
      let existingIds := cands.map (·.id)
      let seatIds := userSeatFlightIds st userId existingIds
      let part := partitionImport cands sigMap seatIds uniq
      let st1 :=
        if part.1.length ≠ 0 then createManyFlightsPrimitive st part.1 else st
      let insertedFlights := if part.1.length ≠ 0 then part.1.length else 0
      let uniqueSeats := dedupeSeatRows part.2
      let st2 :=
        if part.2.length ≠ 0 ∧ uniqueSeats.length ≠ 0 then
          insertSeatRows st1 uniqueSeats
        else st1
      let attachedSeats :=
        if part.2.length ≠ 0 ∧ uniqueSeats.length ≠ 0 then uniqueSeats.length
        else 0
      (st2, insertedFlights, attachedSeats)

end AirTrail

namespace AirTrail

/-- Members of the candidate set are the user's own stored flights: the list
query keeps only flights on which the user holds a seat. -/
theorem candidateFlights_spec (st : DBState) (userId : String)
    (uniq : List CreateFlight) (e : StoredFlight)
    (he : e ∈ candidateFlights st userId uniq) :
    e ∈ st.flights ∧ userHasSeatOn userId e = true := by
  unfold candidateFlights at he
  split at he
  · simp only [List.mem_filter] at he
    exact ⟨he.1.1.1, he.1.1.2⟩
  · simp at he

/-- Every entry of the signature index is the signature and id of some
candidate. -/
theorem buildSigMap_fold_entries (cands : List StoredFlight) :
    ∀ (acc : List (String × Nat)) (p : String × Nat),
      p ∈ cands.foldl sigMapStep acc →
      p ∈ acc ∨ ∃ e ∈ cands, p = (signature (storedToCreate e), e.id) := by
  induction cands with
  | nil =>
    intro acc p hp
    exact Or.inl hp
  | cons e rest ih =>
    intro acc p hp
    simp only [List.foldl_cons] at hp
    rcases ih (sigMapStep acc e) p hp with hmem | ⟨e', he', hpe⟩
    · unfold sigMapStep at hmem
      split at hmem
      · exact Or.inl hmem
      · rcases List.mem_append.mp hmem with hmem | hmem
        · exact Or.inl hmem
        · right
          refine ⟨e, List.mem_cons_self e rest, ?_⟩
          simpa using hmem
    · exact Or.inr ⟨e', List.mem_cons_of_mem e he', hpe⟩

/-- If some candidate has signature `k`, the fold of the signature index
keeps an entry with key `k`. -/
theorem buildSigMap_covers (cands : List StoredFlight) :
    ∀ (acc : List (String × Nat)) (k : String),
      ((∃ q ∈ acc, q.1 = k) ∨
        ∃ e ∈ cands, signature (storedToCreate e) = k) →
      ∃ q ∈ cands.foldl sigMapStep acc, q.1 = k := by
  induction cands with
  | nil =>
    intro acc k h
    rcases h with ⟨q, hq, hk⟩ | ⟨e, he, _⟩
    · exact ⟨q, hq, hk⟩
    · simp at he
  | cons e rest ih =>
    intro acc k h
    simp only [List.foldl_cons]
    apply ih
    rcases h with ⟨q, hq, hk⟩ | ⟨e', he', hk⟩
    · left
      refine ⟨q, ?_, hk⟩
      unfold sigMapStep
      split
      · exact hq
      · exact List.mem_append_left _ hq
    · rcases List.mem_cons.mp he' with rfl | he'
      · left
        unfold sigMapStep
        split
        · rename_i hany
          rw [List.any_eq_true] at hany
          obtain ⟨q, hq, hqk⟩ := hany
          rw [decide_eq_true_eq] at hqk
          exact ⟨q, hq, by rw [hqk, hk]⟩
        · exact ⟨(signature (storedToCreate e'), e'.id),
            List.mem_append_right _ (by simp), hk⟩
      · exact Or.inr ⟨e', he', hk⟩

/-- A key present among the entries makes `find?` return a matching entry. -/
theorem find?_key (m : List (String × Nat)) (k : String)
    (h : ∃ q ∈ m, q.1 = k) :
    ∃ p, m.find? (fun p => p.1 = k) = some p ∧ p.1 = k ∧ p ∈ m := by
  obtain ⟨q, hq, hk⟩ := h
  have hsome : (m.find? (fun p => p.1 = k)).isSome := by
    rw [List.find?_isSome]
    exact ⟨q, hq, by simp [hk]⟩
  obtain ⟨p, hp⟩ := Option.isSome_iff_exists.mp hsome
  have hpk := List.find?_some hp
  rw [decide_eq_true_eq] at hpk
  exact ⟨p, hp, hpk, List.mem_of_find?_eq_some hp⟩

/-- If every incoming flight's signature resolves to a nonzero id on which
the user already holds a seat, the partition loop adds nothing. -/
theorem partitionImport_all_skip (cands : List StoredFlight)
    (sigMap : List (String × Nat)) (seatIds : List Nat) :
    ∀ (uniq : List CreateFlight) (acc : List CreateFlight × List SeatRow),
      (∀ f ∈ uniq,
        ∃ id, ((sigMap.find? (fun p => p.1 = signature f)).map (·.2)).getD 0 = id ∧
          id ≠ 0 ∧ seatIds.contains id = true) →
      uniq.foldl (partitionStep cands sigMap seatIds) acc = acc := by
  intro uniq
  induction uniq with
  | nil => intro acc _; rfl
  | cons f rest ih =>
    intro acc h
    simp only [List.foldl_cons]
    have hstep : partitionStep cands sigMap seatIds acc f = acc := by
      obtain ⟨id, hid, hne, hcont⟩ := h f (List.mem_cons_self f rest)
      unfold partitionStep
      rw [hid]
      have hmem : id ∈ seatIds := by
        rw [List.contains] at hcont
        exact List.mem_of_elem_eq_true hcont
      simp [hne, hmem]
    rw [hstep]
    exact ih acc (fun g hg => h g (List.mem_cons_of_mem f hg))

end AirTrail

namespace AirTrail

/-- C1 (amended): with dedupe enabled, when every (batch-deduplicated)
incoming flight's signature matches one of the fetched candidate flights —
the importing user's own flights narrowed to the batch's dates and first-leg
airport ids — the whole batch is discarded: no flight row, no seat row, and
the result is `(insertedFlights, attachedSeats) = (0, 0)`.  (Candidates
always carry a seat of the importing user, because the candidate query only
returns the user's flights.)  Flight ids are the nonzero SERIAL values. -/
theorem dedupe_discards_all (st : DBState) (data : List CreateFlight)
    (userId : String)
    (hids : ∀ e ∈ st.flights, e.id ≠ 0)
    (hmatch : ∀ f ∈ dedupeBatch data,
      ∃ e ∈ candidateFlights st userId (dedupeBatch data),
        signature (storedToCreate e) = signature f) :
    createManyFlights st data userId true = (st, 0, 0) := by
  by_cases hu : (dedupeBatch data).length = 0
  · unfold createManyFlights
    simp [hu]
  · have hpart :
        partitionImport (candidateFlights st userId (dedupeBatch data))
          (buildSigMap (candidateFlights st userId (dedupeBatch data)))
          (userSeatFlightIds st userId
            ((candidateFlights st userId (dedupeBatch data)).map (·.id)))
          (dedupeBatch data) = ([], []) := by
      unfold partitionImport
      apply partitionImport_all_skip
      intro f hf
      obtain ⟨e, he, hsig⟩ := hmatch f hf
      have hcover :
          ∃ q ∈ buildSigMap (candidateFlights st userId (dedupeBatch data)),
            q.1 = signature f :=
        buildSigMap_covers _ [] (signature f) (Or.inr ⟨e, he, hsig⟩)
      obtain ⟨p, hfind, hpk, hpmem⟩ := find?_key _ _ hcover
      rcases buildSigMap_fold_entries _ [] p hpmem with habs | ⟨e', he', hpe⟩
      · simp at habs
      · obtain ⟨hin, hseat⟩ :=
          candidateFlights_spec st userId (dedupeBatch data) e' he'
        refine ⟨e'.id, ?_, hids e' hin, ?_⟩
        · rw [hfind, hpe]
          rfl
        · have hidsmem :
              e'.id ∈ (candidateFlights st userId (dedupeBatch data)).map (·.id) :=
            List.mem_map.mpr ⟨e', he', rfl⟩
          have hmem2 : e'.id ∈ userSeatFlightIds st userId
              ((candidateFlights st userId (dedupeBatch data)).map (·.id)) := by
            unfold userSeatFlightIds
            rw [if_pos (by intro hnil; rw [hnil] at hidsmem; simp at hidsmem)]
            refine List.mem_map.mpr ⟨e', ?_, rfl⟩
            rw [List.mem_filter]
            refine ⟨hin, ?_⟩
            rw [Bool.and_eq_true]
            constructor
            · rw [List.contains]
              exact List.elem_eq_true_of_mem hidsmem
            · exact hseat
          rw [List.contains]
          exact List.elem_eq_true_of_mem hmem2
    unfold createManyFlights
    simp [hu, hpart, dedupeSeatRows]

end AirTrail

namespace AirTrail

/-- Leg data shared by the import examples: resolved airports, a flight
number, and both instants recorded as UTC ISO strings. -/
def legCoreC1 : LegCore :=
  { emptyLeg.toLegCore with
      from_ := some apA
      to_ := some apB
      flightNumber := some "XY1"
      departure := some "2024-01-01T10:00:00.000Z"
      arrival := some "2024-01-01T14:00:00.000Z" }

/-- Alice's seat row. -/
def seatAlice : SeatInput := ⟨some "alice", none, none, none, none⟩

/-- Alice's stored flight (id 3, one leg with id 5). -/
def flightAliceC1 : StoredFlight :=
  ⟨3, "2024-01-01", none, none, [⟨5, legCoreC1, [seatAlice]⟩]⟩

/-- Store after alice's first import. -/
def stC1 : DBState := ⟨[flightAliceC1], 4, 6⟩

/-- The same flight as incoming import data (identical signature). -/
def fC1 : CreateFlight :=
  ⟨"2024-01-01", none, none, [{ toLegCore := legCoreC1, seats := [seatAlice] }]⟩

/-- Witness for C1 (amended): alice re-imports her own flight; the second
run inserts nothing and returns (0, 0). -/
theorem dedupe_discards_all_witness :
    createManyFlights stC1 [fC1] "alice" true = (stC1, 0, 0) := by
  refine dedupe_discards_all stC1 [fC1] "alice" ?_ ?_
  · intro e he
    simp only [stC1, List.mem_singleton] at he
    subst he
    decide
  · intro f hf
    have hd : dedupeBatch [fC1] = [fC1] := rfl
    rw [hd, List.mem_singleton] at hf
    subst hf
    refine ⟨flightAliceC1, ?_, rfl⟩
    have hc : candidateFlights stC1 "alice" (dedupeBatch [fC1]) =
        [flightAliceC1] := rfl
    rw [hc]
    exact List.mem_singleton.mpr rfl

/-- The same scenario but with a null (unresolved) origin airport on the
first leg, as tolerated by the import pipeline. -/
def legCoreC1n : LegCore := { legCoreC1 with from_ := none }

/-- Alice's stored flight with the null origin. -/
def flightAliceC1n : StoredFlight :=
  ⟨3, "2024-01-01", none, none, [⟨5, legCoreC1n, [seatAlice]⟩]⟩

/-- Store after alice's first import of the null-origin flight. -/
def stC1n : DBState := ⟨[flightAliceC1n], 4, 6⟩

/-- The identical incoming flight with the null origin. -/
def fC1n : CreateFlight :=
  ⟨"2024-01-01", none, none, [{ toLegCore := legCoreC1n, seats := [seatAlice] }]⟩

/-- Counterexample to C1 as stated: alice already holds a seat on a stored
flight with the identical signature, yet re-importing it yields
`(insertedFlights, attachedSeats) = (1, 0)` — a duplicate row — because the
null first-leg origin empties the candidate `froms` set and the existing
flight is never fetched. -/
theorem dedupe_reimport_null_airport_counterexample :
    userHasSeatOn "alice" flightAliceC1n = true ∧
    signature (storedToCreate flightAliceC1n) = signature fC1n ∧
    (createManyFlights stC1n [fC1n] "alice" true).2 = (1, 0) :=
  ⟨rfl, rfl, rfl⟩

end AirTrail

namespace AirTrail

/-- The id of every candidate flight is in the user-seat id set: candidates
are the user's own flights, so the batched seat lookup always finds them. -/
theorem candidate_id_in_userSeat (st : DBState) (userId : String)
    (uniq : List CreateFlight) (e' : StoredFlight)
    (he' : e' ∈ candidateFlights st userId uniq) :
    (userSeatFlightIds st userId
        ((candidateFlights st userId uniq).map (·.id))).contains e'.id = true := by
  obtain ⟨hin, hseat⟩ := candidateFlights_spec st userId uniq e' he'
  have hidsmem : e'.id ∈ (candidateFlights st userId uniq).map (·.id) :=
    List.mem_map.mpr ⟨e', he', rfl⟩
  have hmem2 : e'.id ∈ userSeatFlightIds st userId
      ((candidateFlights st userId uniq).map (·.id)) := by
    unfold userSeatFlightIds
    rw [if_pos (by intro hnil; rw [hnil] at hidsmem; simp at hidsmem)]
    refine List.mem_map.mpr ⟨e', ?_, rfl⟩
    rw [List.mem_filter]
    refine ⟨hin, ?_⟩
    rw [Bool.and_eq_true]
    constructor
    · rw [List.contains]
      exact List.elem_eq_true_of_mem hidsmem
    · exact hseat
  rw [List.contains]
  exact List.elem_eq_true_of_mem hmem2

/-- One partition step never queues seat rows: a signature hit always maps to
a candidate's id, and candidates always already carry the user's seat. -/
theorem partitionStep_snd (st : DBState) (userId : String)
    (uniqAll : List CreateFlight) (acc : List CreateFlight × List SeatRow)
    (f : CreateFlight) :
    (partitionStep (candidateFlights st userId uniqAll)
        (buildSigMap (candidateFlights st userId uniqAll))
        (userSeatFlightIds st userId
          ((candidateFlights st userId uniqAll).map (·.id)))
        acc f).2 = acc.2 := by
  unfold partitionStep
  cases hfind : (buildSigMap (candidateFlights st userId uniqAll)).find?
      (fun p => p.1 = signature f) with
  | none => simp [hfind]
  | some p =>
    rcases buildSigMap_fold_entries _ [] p (List.mem_of_find?_eq_some hfind)
      with habs | ⟨e', he', hpe⟩
    · simp at habs
    · by_cases hz : e'.id = 0
      · simp [hfind, hpe, hz]
      · have hcont := candidate_id_in_userSeat st userId uniqAll e' he'
        rw [List.contains] at hcont
        have hmem := List.mem_of_elem_eq_true hcont
        simp [hfind, hpe, hz, hmem]

/-- The whole partition loop leaves the attach list unchanged. -/
theorem partitionImport_fold_snd (st : DBState) (userId : String)
    (uniqAll : List CreateFlight) :
    ∀ (l : List CreateFlight) (acc : List CreateFlight × List SeatRow),
      (l.foldl (partitionStep (candidateFlights st userId uniqAll)
          (buildSigMap (candidateFlights st userId uniqAll))
          (userSeatFlightIds st userId
            ((candidateFlights st userId uniqAll).map (·.id)))) acc).2 =
        acc.2 := by
  intro l
  induction l with
  | nil => intro acc; rfl
  | cons f rest ih =>
    intro acc
    simp only [List.foldl_cons]
    rw [ih, partitionStep_snd]

/-- Bob's stored flight (no alice seat) with the shared leg data. -/
def flightBobC2 : StoredFlight :=
  ⟨3, "2024-01-01", none, none,
    [⟨5, legCoreC1, [⟨some "bob", none, none, none, none⟩]⟩]⟩

/-- Store containing only bob's flight. -/
def stC2 : DBState := ⟨[flightBobC2], 4, 6⟩

/-- Alice's incoming flight with the identical signature. -/
def fC2 : CreateFlight :=
  ⟨"2024-01-01", none, none, [{ toLegCore := legCoreC1, seats := [seatAlice] }]⟩

/-- C2 is violated by the code: with dedupe enabled, `attachedSeats` is 0 on
every input — the candidate query (`listFlightsQuery(userId)`) only returns
flights where the importing user already holds a seat, making the
seat-attachment branch unreachable.  Concretely, alice importing a flight
whose signature matches bob's existing flight gets a duplicate flight row,
`(insertedFlights, attachedSeats) = (1, 0)`, instead of the claimed
`(0, 1)` seat attachment. -/
theorem cross_user_attach_never_happens :
    (∀ (st : DBState) (data : List CreateFlight) (userId : String),
        (createManyFlights st data userId true).2.2 = 0) ∧
    userHasSeatOn "alice" flightBobC2 = false ∧
    userHasSeatOn "bob" flightBobC2 = true ∧
    signature (storedToCreate flightBobC2) = signature fC2 ∧
    (createManyFlights stC2 [fC2] "alice" true).2 = (1, 0) := by
  refine ⟨?_, rfl, rfl, rfl, rfl⟩
  intro st data userId
  by_cases hu : (dedupeBatch data).length = 0
  · unfold createManyFlights
    simp [hu]
  · have h2 : (partitionImport (candidateFlights st userId (dedupeBatch data))
        (buildSigMap (candidateFlights st userId (dedupeBatch data)))
        (userSeatFlightIds st userId
          ((candidateFlights st userId (dedupeBatch data)).map (·.id)))
        (dedupeBatch data)).2 = [] := by
      unfold partitionImport
      exact partitionImport_fold_snd st userId (dedupeBatch data)
        (dedupeBatch data) ([], [])
    unfold createManyFlights
    simp [hu, h2]

end AirTrail

namespace AirTrail

/-- Assigning leg ids and stripping them back is the identity on leg data. -/
theorem mkStoredLegs_fold_map (legs : List CreateLeg) :
    ∀ (acc : List StoredLeg) (n : Nat),
      ((legs.foldl
          (fun acc l => (acc.1 ++ [⟨acc.2, l.toLegCore, l.seats⟩], acc.2 + 1))
          (acc, n)).1.map
        (fun l => ({ toLegCore := l.core, seats := l.seats } : CreateLeg)))
        = acc.map (fun l => ({ toLegCore := l.core, seats := l.seats } : CreateLeg))
            ++ legs := by
  induction legs with
  | nil =>
    intro acc n
    simp
  | cons l rest ih =>
    intro acc n
    simp only [List.foldl_cons]
    rw [ih]
    simp

/-- Inserting one flight appends exactly its data (ids stripped). -/
theorem storedToCreate_insert (st : DBState) (f : CreateFlight) :
    ((createFlightPrimitive st f).1.flights).map storedToCreate =
      st.flights.map storedToCreate ++ [f] := by
  simp only [createFlightPrimitive]
  rw [List.map_append]
  congr 1
  simp only [List.map_cons, List.map_nil]
  congr 1
  unfold storedToCreate mkStoredLegs
  rw [mkStoredLegs_fold_map f.legs [] st.nextLegId]
  simp

/-- Bulk insert appends the whole batch. -/
theorem createManyFlightsPrimitive_map (data : List CreateFlight) :
    ∀ st : DBState,
      (createManyFlightsPrimitive st data).flights.map storedToCreate =
        st.flights.map storedToCreate ++ data := by
  induction data with
  | nil =>
    intro st
    simp [createManyFlightsPrimitive]
  | cons f rest ih =>
    intro st
    have hstep : createManyFlightsPrimitive st (f :: rest)
        = createManyFlightsPrimitive (createFlightPrimitive st f).1 rest := rfl
    rw [hstep, ih, storedToCreate_insert]
    simp

/-- C7: with dedupe disabled, every one of the N incoming flights is
inserted as new — `insertedFlights = N` and the flight table grows by
exactly the batch, regardless of duplicate signatures. -/
theorem no_dedupe_inserts_all (st : DBState) (data : List CreateFlight)
    (userId : String) :
    (createManyFlights st data userId false).2.1 = data.length ∧
    (createManyFlights st data userId false).1.flights.map storedToCreate =
      st.flights.map storedToCreate ++ data := by
  refine ⟨rfl, ?_⟩
  have h1 : (createManyFlights st data userId false).1 =
      createManyFlightsPrimitive st data := rfl
  rw [h1, createManyFlightsPrimitive_map]

end AirTrail

namespace AirTrail

/-- The de-duplicated attach list has pairwise distinct seat keys. -/
theorem dedupeSeatRows_fold_keys_nodup (rows : List SeatRow) :
    ∀ acc : List SeatRow, (acc.map seatKey).Nodup →
      ((rows.foldl seatDedupStep acc).map seatKey).Nodup := by
  induction rows with
  | nil =>
    intro acc h
    simpa using h
  | cons s rest ih =>
    intro acc h
    simp only [List.foldl_cons]
    apply ih
    unfold seatDedupStep
    split
    · exact h
    · rename_i hnone
      simp only [List.any_eq_true, decide_eq_true_eq, not_exists] at hnone
      rw [List.map_append, List.nodup_append]
      refine ⟨h, List.nodup_singleton _, ?_⟩
      intro k hk hks
      simp only [List.map_cons, List.map_nil, List.mem_singleton] at hks
      subst hks
      rw [List.mem_map] at hk
      obtain ⟨t, ht, hkey⟩ := hk
      exact hnone t ⟨ht, hkey⟩

/-- A list whose images under `f` are pairwise distinct has at most one
element in any fibre of `f`. -/
theorem length_filter_le_one_of_const_key {α : Type} (l : List α)
    (f : α → String) (p : α → Bool) (c : String) (hn : (l.map f).Nodup)
    (hc : ∀ x ∈ l.filter p, f x = c) : (l.filter p).length ≤ 1 := by
  have hsub : (l.filter p).Sublist l := List.filter_sublist l
  have hn2 : ((l.filter p).map f).Nodup := ((hsub.map f).nodup hn)
  rcases hf : l.filter p with _ | ⟨a, _ | ⟨b, t⟩⟩
  · simp
  · simp
  · exfalso
    have ha : f a = c := hc a (by rw [hf]; exact List.mem_cons_self _ _)
    have hb : f b = c := hc b (by
      rw [hf]
      exact List.mem_cons_of_mem _ (List.mem_cons_self _ _))
    rw [hf] at hn2
    simp only [List.map_cons, List.nodup_cons, List.mem_cons] at hn2
    exact hn2.1 (Or.inl (by rw [ha, hb]))

/-- A nonempty attach list stays nonempty after de-duplication. -/
theorem dedupeSeatRows_fold_len (rows : List SeatRow) :
    ∀ acc : List SeatRow,
      acc.length ≤ (rows.foldl seatDedupStep acc).length := by
  induction rows with
  | nil =>
    intro acc
    exact Nat.le_refl _
  | cons s rest ih =>
    intro acc
    simp only [List.foldl_cons]
    refine Nat.le_trans ?_ (ih (seatDedupStep acc s))
    unfold seatDedupStep
    split
    · exact Nat.le_refl _
    · simp

/-- C10: the seat-attachment phase de-duplicates by the key
`legId + "|" + (userId ?? "")`, so per existing leg at most one null-user
(guest) seat row survives; and the returned `attachedSeats` of a dedupe run
counts exactly the de-duplicated rows of the attach list. -/
theorem seat_attach_dedup_guest (rows : List SeatRow) (L : Nat) :
    (∀ s : SeatRow, seatKey s = toString s.legId ++ "|" ++ s.userId.getD "") ∧
    ((dedupeSeatRows rows).filter
        (fun s => s.legId = L && s.userId.isNone)).length ≤ 1 ∧
    (∀ (st : DBState) (data : List CreateFlight) (userId : String),
      (createManyFlights st data userId true).2.2 =
        (dedupeSeatRows
          (partitionImport (candidateFlights st userId (dedupeBatch data))
            (buildSigMap (candidateFlights st userId (dedupeBatch data)))
            (userSeatFlightIds st userId
              ((candidateFlights st userId (dedupeBatch data)).map (·.id)))
            (dedupeBatch data)).2).length) := by
  refine ⟨fun s => rfl, ?_, ?_⟩
  · apply length_filter_le_one_of_const_key _ seatKey _
      (toString L ++ "|" ++ "")
    · exact dedupeSeatRows_fold_keys_nodup rows [] (by simp)
    · intro x hx
      rw [List.mem_filter] at hx
      obtain ⟨-, hp⟩ := hx
      rw [Bool.and_eq_true, decide_eq_true_eq, Option.isNone_iff_eq_none] at hp
      rw [seatKey, hp.1, hp.2]
      rfl
  · intro st data userId
    by_cases hu : (dedupeBatch data).length = 0
    · have hnil : dedupeBatch data = [] := List.length_eq_zero.mp hu
      unfold createManyFlights
      rw [hnil]
      simp [partitionImport, dedupeSeatRows]
    · unfold createManyFlights
      simp only [Bool.not_true, Bool.false_eq_true, if_false, hu, ite_false]
      by_cases hp2 : (partitionImport (candidateFlights st userId (dedupeBatch data))
          (buildSigMap (candidateFlights st userId (dedupeBatch data)))
          (userSeatFlightIds st userId
            ((candidateFlights st userId (dedupeBatch data)).map (·.id)))
          (dedupeBatch data)).2 = []
      · simp [hu, hp2, dedupeSeatRows]
      · have hlen : (partitionImport (candidateFlights st userId (dedupeBatch data))
            (buildSigMap (candidateFlights st userId (dedupeBatch data)))
            (userSeatFlightIds st userId
              ((candidateFlights st userId (dedupeBatch data)).map (·.id)))
            (dedupeBatch data)).2.length ≠ 0 := by
          intro h0
          exact hp2 (List.length_eq_zero.mp h0)
        have hdlen : (dedupeSeatRows (partitionImport
            (candidateFlights st userId (dedupeBatch data))
            (buildSigMap (candidateFlights st userId (dedupeBatch data)))
            (userSeatFlightIds st userId
              ((candidateFlights st userId (dedupeBatch data)).map (·.id)))
            (dedupeBatch data)).2).length ≠ 0 := by
          rcases hseats : (partitionImport (candidateFlights st userId (dedupeBatch data))
              (buildSigMap (candidateFlights st userId (dedupeBatch data)))
              (userSeatFlightIds st userId
                ((candidateFlights st userId (dedupeBatch data)).map (·.id)))
              (dedupeBatch data)).2 with _ | ⟨s, srest⟩
          · exact absurd hseats hp2
          · unfold dedupeSeatRows
            rw [hseats]
            simp only [List.foldl_cons]
            have hone : (seatDedupStep [] s).length = 1 := rfl
            have := dedupeSeatRows_fold_len srest (seatDedupStep [] s)
            omega
        simp [hu, hlen, hdlen]

end AirTrail
